import Mathlib

/-!
Shallow embedding of the resilient-forwarding layer of the api_gateway
service (src/api_gateway/index.js): bearer-token authentication, per-client
fixed-window rate limiting, the per-backend circuit breaker wrapping the
proxying call, request forwarding with a header allow-list, and the
middleware pipeline that composes them.

Conventions of the embedding:
- Machine time is a natural number of milliseconds.
- JavaScript strings are Lean strings; the two string operations the
  gateway performs on the Authorization header, namely
  authHeader.startsWith('Bearer ') and authHeader.split(' ')[1], are
  embedded over the character list String.data so that they are
  executable by the kernel.
- The asynchronous axios call is embedded as a tagged outcome value
  (completed status/body, network-level failure, or call-timeout), which
  is exactly the result type the breaker and forwarder consume.
- The circuit-breaker state machine itself lives in the opossum library,
  which is a dependency of the repository and not part of src/; it is
  modelled from the specification's transition rules (spec sections 3 and
  4.3), instantiated with the options object circuitOptions that src does
  define.  The same holds for the express-rate-limit policy (spec
  sections 3 and 4.2) instantiated with the windowMs/max options from src.
-/

namespace ApiGateway

/-- Outcome of the outbound axios call, had it been attempted: the backend
completed with an HTTP status and a body, the connection failed at the
network level, or the call exceeded the configured call-timeout. -/
inductive UpstreamOutcome where
  | completed (status : Nat) (body : String)
  | networkFailure
  | timedOut
  deriving DecidableEq

/-- Embeds the validateStatus option of the axios call built in
forwardRequest (src/api_gateway/index.js line 74): the promise resolves
exactly for statuses strictly below 500. -/
def validateStatus (status : Nat) : Bool := status < 500

/-- Classification of an upstream outcome for breaker accounting: a
completed response resolves (success) exactly when validateStatus accepts
its status; a network failure rejects, and a timed-out call rejects.  A
rejected promise is what the breaker counts as a failure. -/
def isBreakerSuccess : UpstreamOutcome → Bool
  | .completed s _ => validateStatus s
  | .networkFailure => false
  | .timedOut => false

/-- Options of a circuit breaker.  The first three fields are the fields
of the circuitOptions object (src/api_gateway/index.js lines 36-40).
volumeThreshold is the minimum number of recorded calls required before
the error-rate test may open the breaker; src sets no such option, so it
carries the opossum library's documented default, 0. -/
structure CircuitOptions where
  timeout : Nat
  errorThresholdPercentage : Nat
  resetTimeout : Nat
  volumeThreshold : Nat
  deriving DecidableEq

/-- Embeds the circuitOptions object of src (timeout 5000 ms, error
threshold 50 percent, reset timeout 30000 ms) together with the library
default volumeThreshold 0, which src does not override. -/
def circuitOptions : CircuitOptions :=
  { timeout := 5000
    errorThresholdPercentage := 50
    resetTimeout := 30000
    volumeThreshold := 0 }

/-- States of the breaker state machine (spec section 4.3). -/
inductive BreakerStateTag where
  | closed
  | opened
  | halfOpen
  deriving DecidableEq

/-- Modelled from the spec: the BreakerState record of spec section 3 for
the opossum CircuitBreaker, whose implementation is a library dependency
and not under src/.  It carries the machine state, the failure count and
total count over the sample of recorded calls, the instant of the last
state transition, and the configured options. -/
structure Breaker where
  state : BreakerStateTag
  failures : Nat
  total : Nat
  lastTransition : Nat
  opts : CircuitOptions
  deriving DecidableEq

/-- Embeds createCircuitBreaker (src/api_gateway/index.js lines 42-49): a
fresh breaker starts CLOSED with empty counters and the circuitOptions
configuration. -/
def createCircuitBreaker : Breaker :=
  { state := .closed
    failures := 0
    total := 0
    lastTransition := 0
    opts := circuitOptions }

/-- Modelled from the spec: lazy OPEN-to-HALF_OPEN evaluation (spec
section 3 invariant and section 4.3): a breaker whose state field is OPEN
is treated as HALF_OPEN on the next evaluation once the configured
open-duration has elapsed since the last transition. -/
def effectiveState (b : Breaker) (now : Nat) : BreakerStateTag :=
  match b.state with
  | .opened =>
    if b.lastTransition + b.opts.resetTimeout ≤ now then .halfOpen else .opened
  | s => s

/-- Modelled from the spec: the CLOSED-to-OPEN trigger (spec section 4.3):
the breaker opens when the failed fraction of the recorded sample meets or
exceeds the configured error-threshold fraction, provided the sample has
reached the volume threshold (which the repository leaves at 0). -/
def shouldOpen (b : Breaker) (failures total : Nat) : Bool :=
  (b.opts.volumeThreshold ≤ total) &&
    (b.opts.errorThresholdPercentage * total ≤ failures * 100)

/-- Decision taken by the breaker for one incoming call: short-circuit
without any network attempt, or attempt the call and observe its outcome. -/
inductive CallDecision where
  | shortCircuit
  | attempted (outcome : UpstreamOutcome)
  deriving DecidableEq

/-- Modelled from the spec: one step of the breaker state machine of spec
section 4.3 for a call arriving at instant now whose upstream outcome,
were the call attempted, is the given one.  An effectively OPEN breaker
short-circuits and is unchanged; a CLOSED breaker attempts the call,
records the outcome, and opens (stamping the transition instant) when the
failure trigger fires; an effectively HALF_OPEN breaker attempts the
trial call, closing with counters reset to zero on success and reopening
with a restarted timer on failure. -/
def breakerFire (b : Breaker) (now : Nat) (outcome : UpstreamOutcome) :
    Breaker × CallDecision :=
  match effectiveState b now with
  | .opened => (b, .shortCircuit)
  | .closed =>
    if isBreakerSuccess outcome then
      ({ b with total := b.total + 1 }, .attempted outcome)
    else
      if shouldOpen b (b.failures + 1) (b.total + 1) then
        ({ b with
            state := .opened
            failures := b.failures + 1
            total := b.total + 1
            lastTransition := now }, .attempted outcome)
      else
        ({ b with failures := b.failures + 1, total := b.total + 1 },
          .attempted outcome)
  | .halfOpen =>
    if isBreakerSuccess outcome then
      ({ b with
          state := .closed
          failures := 0
          total := 0
          lastTransition := now }, .attempted outcome)
    else
      ({ b with state := .opened, lastTransition := now }, .attempted outcome)

/-- Iterates breakerFire over n consecutive calls that all arrive at
instant now and all observe the same upstream outcome. -/
def fireRepeat (b : Breaker) (now : Nat) (outcome : UpstreamOutcome) :
    Nat → Breaker
  | 0 => b
  | n + 1 => (breakerFire (fireRepeat b now outcome n) now outcome).1

/-- Modelled from the spec: the RateLimitBucket of spec section 3, the
per-client-key window start instant and request count of the
express-rate-limit dependency, which is not under src/. -/
structure Bucket where
  windowStart : Nat
  count : Nat
  deriving DecidableEq

/-- Embeds the windowMs option of the limiter (src/api_gateway/index.js
line 28): fifteen minutes in milliseconds. -/
def windowMs : Nat := 15 * 60 * 1000

/-- Embeds the max option of the limiter (src/api_gateway/index.js line
29): at most 100 requests per client key per window. -/
def maxRequests : Nat := 100

/-- Modelled from the spec: the fixed-window admission policy of spec
section 4.2 for the express-rate-limit dependency, instantiated with the
windowMs/max options src passes to rateLimit.  The first request for a
key starts a window with count 1; within an unexpired window a request is
admitted while the count is below the limit and the count is incremented;
a request arriving after the window has elapsed starts a fresh window
with count 1; otherwise the request is rejected. -/
def admitRequest (bucket : Option Bucket) (now : Nat) : Bool × Bucket :=
  match bucket with
  | none => (true, { windowStart := now, count := 1 })
  | some bk =>
    if bk.windowStart + windowMs ≤ now then
      (true, { windowStart := now, count := 1 })
    else
      if bk.count < maxRequests then
        (true, { bk with count := bk.count + 1 })
      else
        (false, bk)

/-- Runs n admission attempts for one client key, all at instant t,
starting from no bucket; returns the resulting bucket and whether every
attempt was admitted. -/
def admitRun (t : Nat) : Nat → Option Bucket × Bool
  | 0 => (none, true)
  | n + 1 =>
    let prev := admitRun t n
    let step := admitRequest prev.1 t
    (some step.2, prev.2 && step.1)

/-- Embeds authHeader.startsWith('Bearer ') from authenticateJWT
(src/api_gateway/index.js line 89), over the character list of the
string. -/
def startsWithBearer (h : String) : Bool :=
  ("Bearer ").data.isPrefixOf h.data

/-- Embeds the JavaScript String.split(' ') used at
src/api_gateway/index.js line 90: the character list is cut at every
single space, keeping empty segments. -/
def splitOnSpace : List Char → List (List Char)
  | [] => [[]]
  | c :: cs =>
    if c = ' ' then [] :: splitOnSpace cs
    else
      match splitOnSpace cs with
      | [] => [[c]]
      | t :: ts => (c :: t) :: ts

/-- Embeds authHeader.split(' ')[1] (src/api_gateway/index.js line 90):
the second segment of the space-split header.  In the branch where the
header starts with the seven characters of the bearer marker the split
always has a second segment. -/
def bearerToken (h : String) : String :=
  String.mk ((splitOnSpace h.data).getD 1 [])

/-- Result of jwt.verify for the presented token, as consumed by the
callback at src/api_gateway/index.js lines 92-101: either a verification
error (invalid signature or expired token) or a decoded payload carrying
the user id and, when the payload has an array-valued roles claim, the
role list.  jwt.verify itself lives in the jsonwebtoken dependency, so
theorems quantify over this oracle. -/
inductive VerifyOutcome where
  | verifyErr
  | verified (id : String) (roles : Option (List String))

/-- Structured JSON error envelope, code and message fields
(spec section 6). -/
structure ErrorEnvelope where
  code : String
  message : String
  deriving DecidableEq

/-- Embeds the 401 envelope of src/api_gateway/index.js line 104. -/
def unauthorizedEnv : ErrorEnvelope :=
  { code := "UNAUTHORIZED"
    message := "Authorization header with Bearer token is missing" }

/-- Embeds the 403 envelope of src/api_gateway/index.js line 95. -/
def forbiddenEnv : ErrorEnvelope :=
  { code := "FORBIDDEN", message := "Invalid or expired token" }

/-- Embeds the synthesized 503 envelope of src/api_gateway/index.js line
119. -/
def serviceUnavailableEnv : ErrorEnvelope :=
  { code := "SERVICE_UNAVAILABLE", message := "Service is unavailable" }

/-- Embeds the envelope of the error-handling middleware at
src/api_gateway/index.js lines 157-165. -/
def internalErrorEnv : ErrorEnvelope :=
  { code := "INTERNAL_SERVER_ERROR"
    message := "An unexpected error occurred." }

/-- Result of the authenticateJWT middleware for one request: an
immediate rejection response, continuation with the identity header
values it attached, or a thrown JavaScript TypeError (user.roles.join on
a payload without an array-valued roles claim), which express routes to
the error-handling middleware. -/
inductive AuthStep where
  | reject (status : Nat) (env : ErrorEnvelope)
  | proceed (userId : String) (userRoles : String)
  | threw
  deriving DecidableEq

/-- Embeds authenticateJWT (src/api_gateway/index.js lines 84-106).  A
missing or non-bearer-shaped Authorization header is rejected 401 with
the UNAUTHORIZED envelope; a bearer token failing verification is
rejected 403 with the FORBIDDEN envelope; a verified payload with an
array-valued roles claim attaches x-user-id and the comma-joined
x-user-roles and continues; a verified payload without one makes
user.roles.join throw. -/
def authenticateJWT (authHeader : Option String)
    (verify : String → VerifyOutcome) : AuthStep :=
  match authHeader with
  | some h =>
    if startsWithBearer h then
      match verify (bearerToken h) with
      | .verifyErr => .reject 403 forbiddenEnv
      | .verified uid roles =>
        match roles with
        | some rs => .proceed uid (String.intercalate (",") rs)
        | none => .threw
    else .reject 401 unauthorizedEnv
  | none => .reject 401 unauthorizedEnv

/-- Embeds the requestHeaders object built by forwardRequest
(src/api_gateway/index.js lines 56-66): always x-request-id and
Content-Type, plus x-user-id and x-user-roles copied from the incoming
request's headers when present.  No other incoming header, in particular
not Authorization, is ever copied. -/
def forwardHeaders (reqId : String) (xUserId xUserRoles : Option String) :
    List (String × String) :=
  [("x-request-id", reqId), ("Content-Type", "application/json")]
    ++ (match xUserId with
        | some v => [("x-user-id", v)]
        | none => [])
    ++ (match xUserRoles with
        | some v => [("x-user-roles", v)]
        | none => [])

/-- The fixed allow-list of header names forwardRequest can emit. -/
def allowedHeaderNames : List String :=
  ["x-request-id", "Content-Type", "x-user-id", "x-user-roles"]

/-- Body of a response the gateway sends to its client: a backend body
relayed verbatim, the opossum fallback object, a structured error
envelope, the express-rate-limit rejection body, or one of the two static
info bodies. -/
inductive ResponseData where
  | backendData (body : String)
  | fallbackData
  | errEnvelope (env : ErrorEnvelope)
  | tooManyRequests
  | statusBody
  | healthBody
  deriving DecidableEq

/-- Settled value of circuit.fire as observed by handleServiceRequest: a
resolved value carrying an optional numeric status field and a data
field, or a rejection optionally carrying an axios error response.  The
opossum fallback object of src lines 44-47 resolves with no status and no
data fields; axios rejections for 5xx carry the response, while network
failures and timeouts carry none. -/
inductive FireOutput where
  | resolvedValue (status : Option Nat) (data : ResponseData)
  | rejectedValue (response : Option (Nat × ResponseData))
  deriving DecidableEq

/-- HTTP response the gateway returns to its client. -/
structure Response where
  status : Nat
  body : ResponseData
  deriving DecidableEq

/-- Embeds handleServiceRequest (src/api_gateway/index.js lines 109-122).
A resolved value with a numeric status is relayed as-is.  A resolved
value without one (the fallback object) makes res.status(undefined) /
res.json(undefined) throw when node validates the status code, the
rejection reaches the catch branch, and, the thrown TypeError carrying no
response field, the catch synthesizes 503 with the SERVICE_UNAVAILABLE
envelope.  A rejection with an axios response relays its status and data;
a rejection without one gets the same synthesized 503. -/
def handleServiceRequest : FireOutput → Response
  | .resolvedValue (some s) d => { status := s, body := d }
  | .resolvedValue none _ =>
    { status := 503, body := .errEnvelope serviceUnavailableEnv }
  | .rejectedValue (some (s, d)) => { status := s, body := d }
  | .rejectedValue none =>
    { status := 503, body := .errEnvelope serviceUnavailableEnv }

/-- Maps a breaker decision to the settled value of circuit.fire: a
short-circuit resolves with the fallback object (no status field); an
attempted call resolves with status and body when validateStatus accepts
the status, rejects with the response attached for a 5xx completion, and
rejects bare for a network failure or timeout. -/
def fireOutput : CallDecision → FireOutput
  | .shortCircuit => .resolvedValue none .fallbackData
  | .attempted (.completed s d) =>
    if validateStatus s then .resolvedValue (some s) (.backendData d)
    else .rejectedValue (some (s, .backendData d))
  | .attempted .networkFailure => .rejectedValue none
  | .attempted .timedOut => .rejectedValue none

/-- The routes the gateway mounts (src/api_gateway/index.js lines
124-154): the two public info endpoints, the public /v1/auth prefix, and
the two protected prefixes /v1/users and /v1/orders. -/
inductive Route where
  | statusRoute
  | healthRoute
  | authRoute
  | usersRoute
  | ordersRoute
  deriving DecidableEq

/-- The two backend services, each owning one breaker (src lines 79-80). -/
inductive ServiceId where
  | users
  | orders
  deriving DecidableEq

/-- Backend a route forwards to: /v1/auth and /v1/users use the users
circuit, /v1/orders the orders circuit, the info endpoints none. -/
def targetService : Route → Option ServiceId
  | .statusRoute => none
  | .healthRoute => none
  | .authRoute => some .users
  | .usersRoute => some .users
  | .ordersRoute => some .orders

/-- Inbound request as the pipeline sees it: matched route, Authorization
header, client-supplied x-user-id / x-user-roles headers, the client key
the limiter buckets on, and the correlation id. -/
structure GatewayRequest where
  route : Route
  authorization : Option String
  xUserId : Option String
  xUserRoles : Option String
  clientKey : String
  reqId : String

/-- Mutable process state of the gateway: the limiter's buckets by client
key and the two per-backend breakers. -/
structure GatewayState where
  buckets : String → Option Bucket
  usersCircuit : Breaker
  ordersCircuit : Breaker

/-- Breaker owned by a backend. -/
def serviceBreaker (st : GatewayState) : ServiceId → Breaker
  | .users => st.usersCircuit
  | .orders => st.ordersCircuit

/-- Replaces the breaker owned by a backend. -/
def setServiceBreaker (st : GatewayState) : ServiceId → Breaker → GatewayState
  | .users, b => { st with usersCircuit := b }
  | .orders, b => { st with ordersCircuit := b }

/-- Observable side effects of handling one request: the headers of the
forwarded outbound request when a network attempt was made, none
otherwise. -/
structure Trace where
  forwardedHeaders : Option (List (String × String))
  deriving DecidableEq

/-- Embeds handleServiceRequest wired to one backend's breaker: fires the
breaker, and on an attempted call forwards with the allow-list headers
built from the request, relaying the settled value; on a short-circuit no
outbound request exists. -/
def runService (st : GatewayState) (rq : GatewayRequest) (now : Nat)
    (upstream : UpstreamOutcome) (svc : ServiceId) :
    GatewayState × Response × Trace :=
  let fired := breakerFire (serviceBreaker st svc) now upstream
  let st2 := setServiceBreaker st svc fired.1
  match fired.2 with
  | .shortCircuit =>
    (st2, handleServiceRequest (fireOutput .shortCircuit),
      { forwardedHeaders := none })
  | .attempted oc =>
    (st2, handleServiceRequest (fireOutput (.attempted oc)),
      { forwardedHeaders :=
          some (forwardHeaders rq.reqId rq.xUserId rq.xUserRoles) })

/-- Embeds the gateway's middleware pipeline in mounting order
(src/api_gateway/index.js lines 22-154): the rate limiter is installed
with app.use before any route, so it reads and updates the client's
bucket first and rejects with 429 when over quota; then the two public
info endpoints answer; the public /v1/auth prefix forwards through the
users circuit with no authentication; the protected /v1/users and
/v1/orders prefixes run authenticateJWT, whose rejection is terminal,
whose thrown TypeError reaches the error-handling middleware as a 500
INTERNAL_SERVER_ERROR, and whose success attaches the identity headers
(overwriting any client-supplied ones) before forwarding through the
backend's circuit. -/
def processRequest (st : GatewayState) (rq : GatewayRequest) (now : Nat)
    (verify : String → VerifyOutcome) (upstream : UpstreamOutcome) :
    GatewayState × Response × Trace :=
  let admitted := admitRequest (st.buckets rq.clientKey) now
  let st1 : GatewayState :=
    { st with buckets :=
        fun k => if k = rq.clientKey then some admitted.2 else st.buckets k }
  if admitted.1 = false then
    (st1, { status := 429, body := .tooManyRequests },
      { forwardedHeaders := none })
  else
    match rq.route with
    | .statusRoute =>
      (st1, { status := 200, body := .statusBody },
        { forwardedHeaders := none })
    | .healthRoute =>
      (st1, { status := 200, body := .healthBody },
        { forwardedHeaders := none })
    | .authRoute => runService st1 rq now upstream .users
    | .usersRoute =>
      match authenticateJWT rq.authorization verify with
      | .reject s env =>
        (st1, { status := s, body := .errEnvelope env },
          { forwardedHeaders := none })
      | .threw =>
        (st1, { status := 500, body := .errEnvelope internalErrorEnv },
          { forwardedHeaders := none })
      | .proceed uid rstr =>
        runService st1
          { rq with xUserId := some uid, xUserRoles := some rstr }
          now upstream .users
    | .ordersRoute =>
      match authenticateJWT rq.authorization verify with
      | .reject s env =>
        (st1, { status := s, body := .errEnvelope env },
          { forwardedHeaders := none })
      | .threw =>
        (st1, { status := 500, body := .errEnvelope internalErrorEnv },
          { forwardedHeaders := none })
      | .proceed uid rstr =>
        runService st1
          { rq with xUserId := some uid, xUserRoles := some rstr }
          now upstream .orders

/-- Property of an Authorization header value that makes authenticateJWT
take its else branch: the header is absent or not bearer-shaped. -/
def notBearerShaped : Option String → Prop
  | none => True
  | some h => startsWithBearer h = false

/-- Gateway state with empty limiter buckets and both breakers fresh. -/
def freshState : GatewayState :=
  { buckets := fun _ => none
    usersCircuit := createCircuitBreaker
    ordersCircuit := createCircuitBreaker }

/-- Gateway state whose users breaker opened at instant 0 and whose
orders breaker is fresh. -/
def openUsersState : GatewayState :=
  { buckets := fun _ => none
    usersCircuit := { createCircuitBreaker with state := .opened }
    ordersCircuit := createCircuitBreaker }

/-- Request to the protected /v1/users prefix with no Authorization
header. -/
def noAuthReq : GatewayRequest :=
  { route := .usersRoute
    authorization := none
    xUserId := none
    xUserRoles := none
    clientKey := "10.0.0.1"
    reqId := "rid-1" }

/-- Request to the public /v1/auth prefix with no credential and no
identity headers. -/
def publicAuthReq : GatewayRequest :=
  { route := .authRoute
    authorization := none
    xUserId := none
    xUserRoles := none
    clientKey := "10.0.0.2"
    reqId := "rid-2" }

/-- Request to the public /v1/auth prefix on which the unauthenticated
client itself supplies identity headers. -/
def injectedReq : GatewayRequest :=
  { route := .authRoute
    authorization := none
    xUserId := some ("forged-admin")
    xUserRoles := some ("admin")
    clientKey := "10.0.0.3"
    reqId := "rid-3" }

/-- Request to the protected /v1/users prefix bearing a bearer-shaped
credential. -/
def bearerReq : GatewayRequest :=
  { route := .usersRoute
    authorization := some ("Bearer tok")
    xUserId := none
    xUserRoles := none
    clientKey := "10.0.0.4"
    reqId := "rid-4" }

/-- Verification oracle that rejects every token. -/
def rejectAllTokens : String → VerifyOutcome := fun _ => .verifyErr

/-- Verification oracle that accepts every token with user id u1 and the
two-element role list. -/
def acceptWithRoles : String → VerifyOutcome :=
  fun _ => .verified "u1" (some ["admin", "user"])

/-- Verification oracle that accepts every token with user id u1 but a
payload carrying no array-valued roles claim. -/
def acceptWithoutRoles : String → VerifyOutcome :=
  fun _ => .verified "u1" none

/-- Breaker that opened at instant 0 after recording three failures among
five calls. -/
def trippedBreaker : Breaker :=
  { createCircuitBreaker with state := .opened, failures := 3, total := 5 }


/-- A CLOSED breaker attempts the call. -/
theorem breakerFire_closed_attempts (b : Breaker) (now : Nat)
    (oc : UpstreamOutcome) (hb : b.state = .closed) :
    (breakerFire b now oc).2 = .attempted oc := by
  unfold breakerFire
  simp only [effectiveState, hb]
  cases hs : isBreakerSuccess oc <;> simp [hs]
  split <;> rfl

/-- A CLOSED breaker handed a success stays CLOSED and keeps its failure
count. -/
theorem breakerFire_closed_success (b : Breaker) (now : Nat)
    (oc : UpstreamOutcome) (hb : b.state = .closed)
    (hs : isBreakerSuccess oc = true) :
    (breakerFire b now oc).1.state = .closed ∧
    (breakerFire b now oc).1.failures = b.failures := by
  unfold breakerFire
  simp only [effectiveState, hb]
  simp [hs]

/-- Iterating successes from a CLOSED breaker stays CLOSED with the
failure count unchanged. -/
theorem fireRepeat_closed_success (b : Breaker) (now : Nat)
    (oc : UpstreamOutcome) (hb : b.state = .closed)
    (hs : isBreakerSuccess oc = true) (n : Nat) :
    (fireRepeat b now oc n).state = .closed ∧
    (fireRepeat b now oc n).failures = b.failures := by
  induction n with
  | zero => exact ⟨hb, rfl⟩
  | succ m ih =>
    have h := breakerFire_closed_success (fireRepeat b now oc m) now oc ih.1 hs
    refine ⟨h.1, ?_⟩
    calc (fireRepeat b now oc (m + 1)).failures
        = (fireRepeat b now oc m).failures := h.2
      _ = b.failures := ih.2

/-- An OPEN breaker whose open-duration has not elapsed short-circuits
and is unchanged. -/
theorem breakerFire_open_short_circuit (b : Breaker) (now : Nat)
    (oc : UpstreamOutcome) (hb : b.state = .opened)
    (hfresh : now < b.lastTransition + b.opts.resetTimeout) :
    breakerFire b now oc = (b, .shortCircuit) := by
  unfold breakerFire
  simp only [effectiveState, hb]
  rw [if_neg (by omega)]

/-- Updating only the limiter buckets leaves both breakers in place. -/
theorem serviceBreaker_buckets_update (st : GatewayState)
    (f : String → Option Bucket) (svc : ServiceId) :
    serviceBreaker { st with buckets := f } svc = serviceBreaker st svc := by
  cases svc <;> rfl

/-- Handling a request on a backend whose breaker is effectively OPEN
forwards nothing and answers the synthesized 503. -/
theorem runService_open_503 (st : GatewayState) (rq : GatewayRequest)
    (now : Nat) (oc : UpstreamOutcome) (svc : ServiceId)
    (hopen : (serviceBreaker st svc).state = .opened)
    (hfresh : now < (serviceBreaker st svc).lastTransition +
      (serviceBreaker st svc).opts.resetTimeout) :
    (runService st rq now oc svc).2.1 =
      { status := 503, body := .errEnvelope serviceUnavailableEnv } ∧
    (runService st rq now oc svc).2.2.forwardedHeaders = none := by
  have h := breakerFire_open_short_circuit (serviceBreaker st svc) now oc hopen hfresh
  unfold runService
  rw [h]
  exact ⟨rfl, rfl⟩

/-- Handling a request on a backend whose breaker is CLOSED attempts the
call, forwarding exactly the allow-list headers built from the request. -/
theorem runService_closed_forward (st : GatewayState) (rq : GatewayRequest)
    (now : Nat) (oc : UpstreamOutcome) (svc : ServiceId)
    (hclosed : (serviceBreaker st svc).state = .closed) :
    (runService st rq now oc svc).2.2.forwardedHeaders =
      some (forwardHeaders rq.reqId rq.xUserId rq.xUserRoles) := by
  have h := breakerFire_closed_attempts (serviceBreaker st svc) now oc hclosed
  unfold runService
  rcases h2 : breakerFire (serviceBreaker st svc) now oc with ⟨b2, d2⟩
  rw [h2] at h
  simp at h
  rw [h]


/-- A request to a protected prefix whose authentication step rejects is
answered with that rejection: nothing is forwarded, both breakers are
untouched, and the limiter bucket for the client key has already been
updated by the global limiter middleware. -/
theorem processRequest_protected_reject (st : GatewayState)
    (rq : GatewayRequest) (now : Nat) (verify : String → VerifyOutcome)
    (oc : UpstreamOutcome) (s : Nat) (env : ErrorEnvelope)
    (hroute : rq.route = .usersRoute ∨ rq.route = .ordersRoute)
    (hlim : (admitRequest (st.buckets rq.clientKey) now).1 = true)
    (hrej : authenticateJWT rq.authorization verify = .reject s env) :
    (processRequest st rq now verify oc).2.1 =
      { status := s, body := .errEnvelope env } ∧
    (processRequest st rq now verify oc).2.2.forwardedHeaders = none ∧
    (processRequest st rq now verify oc).1.usersCircuit = st.usersCircuit ∧
    (processRequest st rq now verify oc).1.ordersCircuit = st.ordersCircuit ∧
    (processRequest st rq now verify oc).1.buckets rq.clientKey =
      some (admitRequest (st.buckets rq.clientKey) now).2 := by
  rcases hroute with h1 | h1 <;>
    simp [processRequest, h1, hlim, hrej]


/-- C1: a completed response with a 4xx status is classified a success
for breaker accounting; a recorded success never increments any breaker's
failure count; any number of consecutive 4xx completions leaves a CLOSED
breaker CLOSED with its failure count unchanged; and only a 5xx
completion, a network-level failure, or a timed-out call is classified a
failure. -/
theorem c1_4xx_is_breaker_success (s : Nat) (d : String) (_h4 : 400 ≤ s)
    (h5 : s < 500) (b : Breaker) (now n : Nat) (hb : b.state = .closed) :
    isBreakerSuccess (.completed s d) = true ∧
    (∀ b2 now2,
      (breakerFire b2 now2 (UpstreamOutcome.completed s d)).1.failures ≤
        b2.failures) ∧
    (fireRepeat b now (.completed s d) n).state = .closed ∧
    (fireRepeat b now (.completed s d) n).failures = b.failures ∧
    (∀ s2 d2, 500 ≤ s2 → isBreakerSuccess (.completed s2 d2) = false) ∧
    isBreakerSuccess .networkFailure = false ∧
    isBreakerSuccess .timedOut = false := by
  have hsucc : isBreakerSuccess (UpstreamOutcome.completed s d) = true := by
    simp [isBreakerSuccess, validateStatus, h5]
  have hrep := fireRepeat_closed_success b now (.completed s d) hb hsucc n
  refine ⟨hsucc, ?_, hrep.1, hrep.2, ?_, rfl, rfl⟩
  · intro b2 now2
    unfold breakerFire
    cases heff : effectiveState b2 now2
    · simp [hsucc]
    · simp
    · simp [hsucc]
  · intro s2 d2 h2
    simp [isBreakerSuccess, validateStatus]
    omega

/-- C2: a request routed to a backend whose breaker is OPEN (its
open-duration not yet elapsed) causes no network attempt and is answered
503 with the synthesized SERVICE_UNAVAILABLE envelope. -/
theorem c2_open_breaker_short_circuits (st : GatewayState)
    (rq : GatewayRequest) (now : Nat) (verify : String → VerifyOutcome)
    (oc : UpstreamOutcome) (svc : ServiceId)
    (hsvc : targetService rq.route = some svc)
    (hlim : (admitRequest (st.buckets rq.clientKey) now).1 = true)
    (hauth : rq.route = .usersRoute ∨ rq.route = .ordersRoute →
      ∃ uid rstr,
        authenticateJWT rq.authorization verify = .proceed uid rstr)
    (hopen : (serviceBreaker st svc).state = .opened)
    (hfresh : now < (serviceBreaker st svc).lastTransition +
      (serviceBreaker st svc).opts.resetTimeout) :
    (processRequest st rq now verify oc).2.1 =
      { status := 503, body := .errEnvelope serviceUnavailableEnv } ∧
    (processRequest st rq now verify oc).2.2.forwardedHeaders = none := by
  rcases hr : rq.route with _ | _ | _ | _ | _
  · rw [hr] at hsvc
    exact absurd hsvc (by simp [targetService])
  · rw [hr] at hsvc
    exact absurd hsvc (by simp [targetService])
  · have hu : svc = .users := by
      rw [hr] at hsvc
      simp [targetService] at hsvc
      exact hsvc.symm
    subst hu
    simp only [processRequest, hlim, hr]
    simp only [Bool.true_eq_false, if_false]
    exact runService_open_503 _ rq now oc .users hopen hfresh
  · have hu : svc = .users := by
      rw [hr] at hsvc
      simp [targetService] at hsvc
      exact hsvc.symm
    subst hu
    obtain ⟨uid, rstr, hpr⟩ := hauth (Or.inl hr)
    simp only [processRequest, hlim, hr, hpr]
    simp only [Bool.true_eq_false, if_false]
    exact runService_open_503 _ _ now oc .users hopen hfresh
  · have hu : svc = .orders := by
      rw [hr] at hsvc
      simp [targetService] at hsvc
      exact hsvc.symm
    subst hu
    obtain ⟨uid, rstr, hpr⟩ := hauth (Or.inr hr)
    simp only [processRequest, hlim, hr, hpr]
    simp only [Bool.true_eq_false, if_false]
    exact runService_open_503 _ _ now oc .orders hopen hfresh

/-- C5: once the configured open-duration of 30000 ms has elapsed since
the breaker opened, the next call is let through as the trial call; a
successful trial closes the breaker with its failure counters reset to
zero, and a failed trial reopens it with the timer restarted at that
instant. -/
theorem c5_half_open_trial (b : Breaker) (now : Nat) (oc : UpstreamOutcome)
    (hb : b.state = .opened) (ho : b.opts = circuitOptions)
    (helapsed : b.lastTransition + 30000 ≤ now) :
    (breakerFire b now oc).2 = .attempted oc ∧
    (isBreakerSuccess oc = true →
      (breakerFire b now oc).1.state = .closed ∧
      (breakerFire b now oc).1.failures = 0 ∧
      (breakerFire b now oc).1.total = 0) ∧
    (isBreakerSuccess oc = false →
      (breakerFire b now oc).1.state = .opened ∧
      (breakerFire b now oc).1.lastTransition = now) := by
  have heff : effectiveState b now = .halfOpen := by
    simp only [effectiveState, hb]
    rw [if_pos (by rw [ho]; exact helapsed)]
  unfold breakerFire
  rw [heff]
  cases hs : isBreakerSuccess oc <;> simp [hs]


/-- C3 counterexample: the breaker configuration sets no minimum sample
size, so the very first recorded failure on an otherwise idle CLOSED
breaker (a sample of size one, 100 percent failed) already opens it. -/
theorem c3_min_sample_counterexample :
    createCircuitBreaker.state = .closed ∧
    createCircuitBreaker.total = 0 ∧
    createCircuitBreaker.failures = 0 ∧
    (breakerFire createCircuitBreaker 1000 .networkFailure).1.state =
      .opened := by
  decide

/-- C3 amended: from a CLOSED breaker carrying the repository's options,
a recorded failure opens the breaker exactly when the failed fraction of
the sample including it meets or exceeds the 50 percent threshold; no
minimum sample size constrains the transition (the volume threshold is
its default 0), and a successful call never triggers it. -/
theorem c3_amended_threshold_no_min_sample (b : Breaker) (now : Nat)
    (oc : UpstreamOutcome) (hb : b.state = .closed)
    (ho : b.opts = circuitOptions) (hf : isBreakerSuccess oc = false) :
    ((breakerFire b now oc).1.state = .opened ↔
      50 * (b.total + 1) ≤ (b.failures + 1) * 100) ∧
    (∀ oc2, isBreakerSuccess oc2 = true →
      (breakerFire b now oc2).1.state = .closed) := by
  constructor
  · unfold breakerFire
    simp only [effectiveState, hb, hf]
    simp only [Bool.false_eq_true, if_false]
    by_cases hc : 50 * (b.total + 1) ≤ (b.failures + 1) * 100
    · rw [if_pos]
      · simp [hc]
      · simp [shouldOpen, ho, circuitOptions, hc]
    · rw [if_neg]
      · simp [hb, hc]
      · simp [shouldOpen, ho, circuitOptions, hc]
  · intro oc2 h2
    exact (breakerFire_closed_success b now oc2 hb h2).1

/-- C4 counterexample: a request to the protected /v1/users prefix with
no Authorization header is rejected 401, yet the rate limiter has
already created and incremented the bucket for the client key, because
the limiter is installed globally ahead of the authentication gate. -/
theorem c4_limiter_before_auth_counterexample :
    (processRequest freshState noAuthReq 0 rejectAllTokens
      .networkFailure).2.1 =
      { status := 401, body := .errEnvelope unauthorizedEnv } ∧
    freshState.buckets noAuthReq.clientKey = none ∧
    (processRequest freshState noAuthReq 0 rejectAllTokens
      .networkFailure).1.buckets noAuthReq.clientKey =
      some { windowStart := 0, count := 1 } := by
  refine ⟨by decide, rfl, by decide⟩

/-- C4 amended: a request to a protected prefix whose authentication
fails is rejected at the auth gate without touching either circuit
breaker or the backend (nothing is forwarded); the rate limiter, however,
runs before authentication as global middleware, so the client's bucket
has already been read and updated. -/
theorem c4_amended_auth_failure_skips_breaker (st : GatewayState)
    (rq : GatewayRequest) (now : Nat) (verify : String → VerifyOutcome)
    (oc : UpstreamOutcome) (s : Nat) (env : ErrorEnvelope)
    (hroute : rq.route = .usersRoute ∨ rq.route = .ordersRoute)
    (hlim : (admitRequest (st.buckets rq.clientKey) now).1 = true)
    (hrej : authenticateJWT rq.authorization verify = .reject s env) :
    (processRequest st rq now verify oc).2.1 =
      { status := s, body := .errEnvelope env } ∧
    (processRequest st rq now verify oc).2.2.forwardedHeaders = none ∧
    (processRequest st rq now verify oc).1.usersCircuit = st.usersCircuit ∧
    (processRequest st rq now verify oc).1.ordersCircuit = st.ordersCircuit ∧
    (processRequest st rq now verify oc).1.buckets rq.clientKey =
      some (admitRequest (st.buckets rq.clientKey) now).2 :=
  processRequest_protected_reject st rq now verify oc s env hroute hlim hrej

/-- Closed form of a run of admissions for one key at one instant: while
the count stays within the limit every request is admitted and the bucket
counts them. -/
theorem admitRun_le (t : Nat) (n : Nat) (hn : n ≤ maxRequests) :
    admitRun t n =
      ((if n = 0 then none
        else some { windowStart := t, count := n }), true) := by
  induction n with
  | zero => rfl
  | succ m ih =>
    have hm : m ≤ maxRequests := Nat.le_of_succ_le hn
    have hw : windowMs = 900000 := rfl
    have hmax : maxRequests = 100 := rfl
    rw [admitRun, ih hm]
    cases m with
    | zero => simp [admitRequest]
    | succ k =>
      simp only [Nat.succ_ne_zero, if_false]
      simp only [admitRequest]
      rw [if_neg (by omega), if_pos (by omega)]
      simp

/-- C6: the limiter is a fixed-window counter per client key: the first
request for a key starts a window with count 1; a run of maxRequests
requests within the window is fully admitted, ending with count
maxRequests; the next request within the unexpired window is rejected;
and the first request after the window has elapsed is admitted and starts
a fresh window with count 1. -/
theorem c6_fixed_window (t t1 t2 : Nat) (hin : t1 < t + windowMs)
    (hafter : t + windowMs ≤ t2) :
    admitRequest none t = (true, { windowStart := t, count := 1 }) ∧
    (∀ n, n ≤ maxRequests → (admitRun t n).2 = true) ∧
    (admitRun t maxRequests).1 =
      some { windowStart := t, count := maxRequests } ∧
    (admitRequest (admitRun t maxRequests).1 t1).1 = false ∧
    admitRequest (admitRun t maxRequests).1 t2 =
      (true, { windowStart := t2, count := 1 }) := by
  have h100 := admitRun_le t maxRequests (Nat.le_refl _)
  have hmax : maxRequests = 100 := rfl
  refine ⟨rfl, ?_, ?_, ?_, ?_⟩
  · intro n hn
    rw [admitRun_le t n hn]
  · rw [h100]
    simp [hmax]
  · rw [h100]
    simp only [hmax, if_neg (by omega : ¬ (100 = 0))]
    simp only [admitRequest]
    rw [if_neg (by omega), if_neg (by omega)]
  · rw [h100]
    simp only [hmax, if_neg (by omega : ¬ (100 = 0))]
    simp only [admitRequest]
    rw [if_pos hafter]


/-- C7: on a protected prefix (the limiter admitting), a missing or
non-bearer-shaped Authorization header is answered 401 with the
UNAUTHORIZED envelope, and a bearer token failing verification is
answered 403 with the FORBIDDEN envelope; both bodies are the structured
error envelope. -/
theorem c7_auth_status_codes (st : GatewayState) (rq : GatewayRequest)
    (now : Nat) (verify : String → VerifyOutcome) (oc : UpstreamOutcome)
    (hroute : rq.route = .usersRoute ∨ rq.route = .ordersRoute)
    (hlim : (admitRequest (st.buckets rq.clientKey) now).1 = true) :
    (notBearerShaped rq.authorization →
      (processRequest st rq now verify oc).2.1 =
        { status := 401, body := .errEnvelope unauthorizedEnv }) ∧
    (∀ h, rq.authorization = some h → startsWithBearer h = true →
      verify (bearerToken h) = .verifyErr →
      (processRequest st rq now verify oc).2.1 =
        { status := 403, body := .errEnvelope forbiddenEnv }) := by
  constructor
  · intro hnb
    have hrej : authenticateJWT rq.authorization verify =
        .reject 401 unauthorizedEnv := by
      rcases ha : rq.authorization with _ | h
      · rfl
      · rw [ha] at hnb
        simp only [notBearerShaped] at hnb
        simp [authenticateJWT, hnb]
    exact (processRequest_protected_reject st rq now verify oc 401
      unauthorizedEnv hroute hlim hrej).1
  · intro h ha hbear hv
    have hrej : authenticateJWT rq.authorization verify =
        .reject 403 forbiddenEnv := by
      rw [ha]
      simp [authenticateJWT, hbear, hv]
    exact (processRequest_protected_reject st rq now verify oc 403
      forbiddenEnv hroute hlim hrej).1

/-- C8: the forwarded request carries only headers from the fixed
allow-list and never the Authorization header; and a request to a
protected prefix with a verified credential (breaker CLOSED) is forwarded
with x-user-id set to the verified subject and x-user-roles to the
comma-joined role list. -/
theorem c8_forward_header_allow_list (rid : String) (xu xr : Option String)
    (st : GatewayState) (rq : GatewayRequest) (now : Nat)
    (verify : String → VerifyOutcome) (oc : UpstreamOutcome)
    (h uid : String) (roles : List String)
    (hroute : rq.route = .usersRoute)
    (hlim : (admitRequest (st.buckets rq.clientKey) now).1 = true)
    (ha : rq.authorization = some h) (hbear : startsWithBearer h = true)
    (hv : verify (bearerToken h) = .verified uid (some roles))
    (hclosed : st.usersCircuit.state = .closed) :
    (∀ nm v, (nm, v) ∈ forwardHeaders rid xu xr →
      nm ∈ allowedHeaderNames) ∧
    (∀ v, ("Authorization", v) ∉ forwardHeaders rid xu xr) ∧
    (processRequest st rq now verify oc).2.2.forwardedHeaders =
      some (forwardHeaders rq.reqId (some uid)
        (some (String.intercalate (",") roles))) ∧
    ("x-user-id", uid) ∈ forwardHeaders rq.reqId (some uid)
      (some (String.intercalate (",") roles)) ∧
    ("x-user-roles", String.intercalate (",") roles) ∈
      forwardHeaders rq.reqId (some uid)
        (some (String.intercalate (",") roles)) := by
  have hpr : authenticateJWT rq.authorization verify =
      .proceed uid (String.intercalate (",") roles) := by
    rw [ha]
    simp [authenticateJWT, hbear, hv]
  refine ⟨?_, ?_, ?_, ?_, ?_⟩
  · intro nm v hmem
    rcases xu with _ | a <;> rcases xr with _ | c <;>
      simp [forwardHeaders] at hmem <;>
      simp [allowedHeaderNames] <;> tauto
  · intro v hmem
    rcases xu with _ | a <;> rcases xr with _ | c <;>
      simp [forwardHeaders] at hmem
  · simp only [processRequest, hlim, hroute, hpr]
    simp only [Bool.true_eq_false, if_false]
    exact runService_closed_forward _ _ now oc .users hclosed
  · simp [forwardHeaders]
  · simp [forwardHeaders]

/-- C9: on the public /v1/auth prefix, where the authentication gate
never runs, identity headers supplied by the unauthenticated client are
copied verbatim into the forwarded request's headers. -/
theorem c9_public_identity_header_injection (st : GatewayState)
    (rq : GatewayRequest) (now : Nat) (verify : String → VerifyOutcome)
    (oc : UpstreamOutcome) (v w : String)
    (hroute : rq.route = .authRoute)
    (hlim : (admitRequest (st.buckets rq.clientKey) now).1 = true)
    (hclosed : st.usersCircuit.state = .closed)
    (hxu : rq.xUserId = some v) (hxr : rq.xUserRoles = some w) :
    (processRequest st rq now verify oc).2.2.forwardedHeaders =
      some (forwardHeaders rq.reqId (some v) (some w)) ∧
    ("x-user-id", v) ∈ forwardHeaders rq.reqId (some v) (some w) ∧
    ("x-user-roles", w) ∈ forwardHeaders rq.reqId (some v) (some w) := by
  refine ⟨?_, ?_, ?_⟩
  · simp only [processRequest, hlim, hroute]
    simp only [Bool.true_eq_false, if_false]
    rw [← hxu, ← hxr]
    exact runService_closed_forward _ _ now oc .users hclosed
  · simp [forwardHeaders]
  · simp [forwardHeaders]

/-- C10: a protected-prefix request bearing a token that verifies but
whose payload has no array-valued roles claim makes authenticateJWT throw
on user.roles.join, and the gateway answers 500 with the
INTERNAL_SERVER_ERROR envelope, neither 403 nor forwarding anything. -/
theorem c10_missing_roles_claim_500 (st : GatewayState)
    (rq : GatewayRequest) (now : Nat) (verify : String → VerifyOutcome)
    (oc : UpstreamOutcome) (h uid : String)
    (hroute : rq.route = .usersRoute ∨ rq.route = .ordersRoute)
    (hlim : (admitRequest (st.buckets rq.clientKey) now).1 = true)
    (ha : rq.authorization = some h) (hbear : startsWithBearer h = true)
    (hv : verify (bearerToken h) = .verified uid none) :
    authenticateJWT rq.authorization verify = .threw ∧
    (processRequest st rq now verify oc).2.1 =
      { status := 500, body := .errEnvelope internalErrorEnv } ∧
    (processRequest st rq now verify oc).2.2.forwardedHeaders = none := by
  have hthrew : authenticateJWT rq.authorization verify = .threw := by
    rw [ha]
    simp [authenticateJWT, hbear, hv]
  refine ⟨hthrew, ?_, ?_⟩ <;>
    rcases hroute with h1 | h1 <;>
      simp [processRequest, h1, hlim, hthrew]


theorem c1_4xx_is_breaker_success_witness :
    isBreakerSuccess (.completed 404 ("nf")) = true ∧
    (fireRepeat createCircuitBreaker 0 (.completed 404 ("nf")) 10).state =
      .closed ∧
    (fireRepeat createCircuitBreaker 0 (.completed 404 ("nf")) 10).failures =
      createCircuitBreaker.failures :=
  ⟨(c1_4xx_is_breaker_success 404 ("nf") (by decide) (by decide)
      createCircuitBreaker 0 10 rfl).1,
   (c1_4xx_is_breaker_success 404 ("nf") (by decide) (by decide)
      createCircuitBreaker 0 10 rfl).2.2.1,
   (c1_4xx_is_breaker_success 404 ("nf") (by decide) (by decide)
      createCircuitBreaker 0 10 rfl).2.2.2.1⟩

theorem c2_open_breaker_short_circuits_witness :
    (processRequest openUsersState publicAuthReq 1000 rejectAllTokens
      .networkFailure).2.1 =
      { status := 503, body := .errEnvelope serviceUnavailableEnv } ∧
    (processRequest openUsersState publicAuthReq 1000 rejectAllTokens
      .networkFailure).2.2.forwardedHeaders = none :=
  c2_open_breaker_short_circuits openUsersState publicAuthReq 1000
    rejectAllTokens .networkFailure .users rfl rfl
    (fun hcontra => by rcases hcontra with hc | hc <;> exact Route.noConfusion hc)
    rfl (by decide)

theorem c3_amended_threshold_no_min_sample_witness :
    ((breakerFire createCircuitBreaker 5 .networkFailure).1.state = .opened ↔
      50 * (createCircuitBreaker.total + 1) ≤
        (createCircuitBreaker.failures + 1) * 100) ∧
    (∀ oc2, isBreakerSuccess oc2 = true →
      (breakerFire createCircuitBreaker 5 oc2).1.state = .closed) :=
  c3_amended_threshold_no_min_sample createCircuitBreaker 5 .networkFailure
    rfl rfl rfl

theorem c4_amended_auth_failure_skips_breaker_witness :
    (processRequest freshState noAuthReq 0 rejectAllTokens
      .networkFailure).2.1 =
      { status := 401, body := .errEnvelope unauthorizedEnv } ∧
    (processRequest freshState noAuthReq 0 rejectAllTokens
      .networkFailure).2.2.forwardedHeaders = none ∧
    (processRequest freshState noAuthReq 0 rejectAllTokens
      .networkFailure).1.usersCircuit = freshState.usersCircuit ∧
    (processRequest freshState noAuthReq 0 rejectAllTokens
      .networkFailure).1.ordersCircuit = freshState.ordersCircuit ∧
    (processRequest freshState noAuthReq 0 rejectAllTokens
      .networkFailure).1.buckets noAuthReq.clientKey =
      some (admitRequest (freshState.buckets noAuthReq.clientKey) 0).2 :=
  c4_amended_auth_failure_skips_breaker freshState noAuthReq 0
    rejectAllTokens .networkFailure 401 unauthorizedEnv (Or.inl rfl) rfl rfl

theorem c5_half_open_trial_witness :
    (breakerFire trippedBreaker 31000 (.completed 200 ("ok"))).2 =
      .attempted (.completed 200 ("ok")) ∧
    (isBreakerSuccess (.completed 200 ("ok")) = true →
      (breakerFire trippedBreaker 31000 (.completed 200 ("ok"))).1.state =
        .closed ∧
      (breakerFire trippedBreaker 31000 (.completed 200 ("ok"))).1.failures =
        0 ∧
      (breakerFire trippedBreaker 31000 (.completed 200 ("ok"))).1.total =
        0) ∧
    (isBreakerSuccess (.completed 200 ("ok")) = false →
      (breakerFire trippedBreaker 31000 (.completed 200 ("ok"))).1.state =
        .opened ∧
      (breakerFire trippedBreaker 31000
        (.completed 200 ("ok"))).1.lastTransition = 31000) :=
  c5_half_open_trial trippedBreaker 31000 (.completed 200 ("ok")) rfl rfl
    (by decide)

theorem c6_fixed_window_witness :
    admitRequest none 0 = (true, { windowStart := 0, count := 1 }) ∧
    (∀ n, n ≤ maxRequests → (admitRun 0 n).2 = true) ∧
    (admitRun 0 maxRequests).1 =
      some { windowStart := 0, count := maxRequests } ∧
    (admitRequest (admitRun 0 maxRequests).1 10).1 = false ∧
    admitRequest (admitRun 0 maxRequests).1 900000 =
      (true, { windowStart := 900000, count := 1 }) :=
  c6_fixed_window 0 10 900000 (by decide) (by decide)

theorem c7_auth_status_codes_witness :
    (processRequest freshState noAuthReq 0 rejectAllTokens
      .networkFailure).2.1 =
      { status := 401, body := .errEnvelope unauthorizedEnv } ∧
    (processRequest freshState bearerReq 0 rejectAllTokens
      .networkFailure).2.1 =
      { status := 403, body := .errEnvelope forbiddenEnv } :=
  ⟨(c7_auth_status_codes freshState noAuthReq 0 rejectAllTokens
      .networkFailure (Or.inl rfl) rfl).1 trivial,
   (c7_auth_status_codes freshState bearerReq 0 rejectAllTokens
      .networkFailure (Or.inl rfl) rfl).2 ("Bearer tok") rfl (by decide) rfl⟩

theorem c8_forward_header_allow_list_witness :
    (∀ nm v, (nm, v) ∈ forwardHeaders ("rid-4") none none →
      nm ∈ allowedHeaderNames) ∧
    (∀ v, ("Authorization", v) ∉ forwardHeaders ("rid-4") none none) ∧
    (processRequest freshState bearerReq 0 acceptWithRoles
      (.completed 200 ("ok"))).2.2.forwardedHeaders =
      some (forwardHeaders bearerReq.reqId (some ("u1"))
        (some (String.intercalate (",") ["admin", "user"]))) ∧
    ("x-user-id", "u1") ∈ forwardHeaders bearerReq.reqId (some ("u1"))
      (some (String.intercalate (",") ["admin", "user"])) ∧
    ("x-user-roles", String.intercalate (",") ["admin", "user"]) ∈
      forwardHeaders bearerReq.reqId (some ("u1"))
        (some (String.intercalate (",") ["admin", "user"])) :=
  c8_forward_header_allow_list ("rid-4") none none freshState bearerReq 0
    acceptWithRoles (.completed 200 ("ok")) ("Bearer tok") ("u1")
    ["admin", "user"] rfl rfl rfl (by decide) rfl rfl

theorem c9_public_identity_header_injection_witness :
    (processRequest freshState injectedReq 0 rejectAllTokens
      (.completed 200 ("ok"))).2.2.forwardedHeaders =
      some (forwardHeaders injectedReq.reqId (some ("forged-admin"))
        (some ("admin"))) ∧
    ("x-user-id", "forged-admin") ∈ forwardHeaders injectedReq.reqId
      (some ("forged-admin")) (some ("admin")) ∧
    ("x-user-roles", "admin") ∈ forwardHeaders injectedReq.reqId
      (some ("forged-admin")) (some ("admin")) :=
  c9_public_identity_header_injection freshState injectedReq 0
    rejectAllTokens (.completed 200 ("ok")) ("forged-admin") ("admin")
    rfl rfl rfl rfl rfl

theorem c10_missing_roles_claim_500_witness :
    authenticateJWT bearerReq.authorization acceptWithoutRoles = .threw ∧
    (processRequest freshState bearerReq 0 acceptWithoutRoles
      (.completed 200 ("ok"))).2.1 =
      { status := 500, body := .errEnvelope internalErrorEnv } ∧
    (processRequest freshState bearerReq 0 acceptWithoutRoles
      (.completed 200 ("ok"))).2.2.forwardedHeaders = none :=
  c10_missing_roles_claim_500 freshState bearerReq 0 acceptWithoutRoles
    (.completed 200 ("ok")) ("Bearer tok") ("u1") (Or.inl rfl) rfl rfl
    (by decide) rfl

end ApiGateway
